import Mathlib

/-!
Verification development for the GaussianMLPModel core
(src/garage/tf/models/gaussian_mlp_model.py).

The model is embedded shallowly:
* numeric values are idealized as real numbers;
* tensors of shape [B, D] are lists of rows, each row a list of reals;
* the external collaborators (the feed-forward builder `mlp`, the
  trainable-parameter broadcaster `parameter`, and the random-noise source)
  are abstract functions bundled in a `BuildEnv`;
* graph construction is modelled by recording the arguments of every
  collaborator call made by `_build`, alongside the produced tensors.
-/

namespace GarageGaussianMLP

/-- Tensors of shape [batch, width]: a list of rows. -/
abbrev Tensor := List (List ℝ)

/-- Initializer objects passed to the collaborators. The model only ever
inspects the two constant forms that `_build` creates itself
(tf.constant_initializer applied to a vector or to a scalar); every
user-supplied initializer object is abstracted as an uninterpreted id. -/
inductive TfInit where
  | user (id : Nat)
  | constVec (v : List ℝ)
  | constScalar (c : ℝ)

/-- Nonlinearity objects: abstracted as uninterpreted ids, none meaning the
identity (Python None). -/
abbrev Nonlin := Option Nat

/-- Configuration of GaussianMLPModel, mirroring the keyword arguments and
defaults of GaussianMLPModel.__init__ (source lines 45-69). -/
structure GaussianMLPConfig where
  output_dim : Nat
  hidden_sizes : List Nat := [32, 32]
  hidden_nonlinearity : Nonlin := some 0
  hidden_w_init : TfInit := .user 0
  hidden_b_init : TfInit := .user 1
  output_nonlinearity : Nonlin := none
  output_w_init : TfInit := .user 0
  output_b_init : TfInit := .user 1
  learn_std : Bool := true
  adaptive_std : Bool := false
  std_share_network : Bool := false
  init_std : ℝ := 1.0
  min_std : Option ℝ := some 1e-6
  max_std : Option ℝ := none
  std_hidden_sizes : List Nat := [32, 32]
  std_hidden_nonlinearity : Nonlin := some 0
  std_hidden_w_init : TfInit := .user 0
  std_hidden_b_init : TfInit := .user 1
  std_output_nonlinearity : Nonlin := none
  std_output_w_init : TfInit := .user 0
  std_output_b_init : TfInit := .user 1
  std_parameterization : String := "exp"
  layer_normalization : Bool := false

/-- Derived parametrization bounds after a successful construction
(the fields self._init_std_param, self._min_std_param, self._max_std_param
of the Python object; the first one is always set on success). -/
structure DerivedBounds where
  init_std_param : ℝ
  min_std_param : Option ℝ := none
  max_std_param : Option ℝ := none

/-- State of the three derived-bound fields of the object at the moment a
construction error is raised. The Python constructor first sets all three
fields to None (source lines 96-98) and only then branches on the mode, so
on the error path every field is still None. -/
structure StdParamState where
  init_std_param : Option ℝ
  min_std_param : Option ℝ
  max_std_param : Option ℝ

/-- Transformation of the std arguments into parameterized space performed by
GaussianMLPModel.__init__ (source lines 95-112). Mode "exp" stores
ln(value); mode "softplus" stores ln(exp(value) - 1); min/max are only
transformed when non-null. Any other mode raises NotImplementedError; the
error payload records the (all-None) field state at raise time. -/
noncomputable def deriveStdParams (init_std : ℝ) (min_std max_std : Option ℝ)
    (mode : String) : Except StdParamState DerivedBounds :=
  if mode = "exp" then
    .ok { init_std_param := Real.log init_std,
          min_std_param := min_std.map Real.log,
          max_std_param := max_std.map Real.log }
  else if mode = "softplus" then
    .ok { init_std_param := Real.log (Real.exp init_std - 1),
          min_std_param := min_std.map (fun v => Real.log (Real.exp v - 1)),
          max_std_param := max_std.map (fun v => Real.log (Real.exp v - 1)) }
  else
    .error { init_std_param := none, min_std_param := none,
             max_std_param := none }

/-- Construction entry point: derives the bounds from the configuration. -/
noncomputable def construct (cfg : GaussianMLPConfig) :
    Except StdParamState DerivedBounds :=
  deriveStdParams cfg.init_std cfg.min_std cfg.max_std cfg.std_parameterization

/-- Elementwise std clamp of `_build` (source lines 189-193): apply
tf.maximum with the lower bound when one is configured, then tf.minimum
with the upper bound when one is configured. -/
noncomputable def stdClamp (minp maxp : Option ℝ) (x : ℝ) : ℝ :=
  let x1 := match minp with
    | some m => max x m
    | none => x
  match maxp with
  | some M => min x1 M
  | none => x1

/-- Clamp lifted elementwise to a whole tensor, as tf.maximum/tf.minimum
act on the std_param tensor. -/
noncomputable def tensorClamp (minp maxp : Option ℝ) (t : Tensor) : Tensor :=
  t.map (List.map (stdClamp minp maxp))

/-- Elementwise log-std conversion of `_build` (source lines 195-200):
mode "exp" is the identity; otherwise (the constructor guarantees the mode
is then "softplus") log_std = ln(ln(1 + exp(std_param))). -/
noncomputable def logStdConverter (mode : String) (x : ℝ) : ℝ :=
  if mode = "exp" then x else Real.log (Real.log (1 + Real.exp x))

/-- Arguments of one call to the feed-forward builder mlp, mirroring the
keyword arguments passed at source lines 129-140, 149-160 and 164-176. -/
structure MlpArgs where
  input : Tensor
  output_dim : Nat
  hidden_sizes : List Nat
  hidden_nonlinearity : Nonlin
  hidden_w_init : TfInit
  hidden_b_init : TfInit
  output_nonlinearity : Nonlin
  output_w_init : TfInit
  output_b_init : TfInit
  name : String
  layer_normalization : Bool

/-- Arguments of one call to the trainable-parameter broadcaster
(source lines 178-184). -/
structure ParamArgs where
  input : Tensor
  length : Nat
  initVal : TfInit
  trainable : Bool
  name : String

/-- External collaborators of `_build`: the feed-forward builder, the
trainable-parameter broadcaster, and the random-normal source (a function
from a requested shape to a unit-Gaussian draw of that shape). -/
structure BuildEnv where
  mlp : MlpArgs → Tensor
  parameter : ParamArgs → Tensor
  randNormal : List Nat → List ℝ

/-- Shape of a [batch, width] tensor, as mean_var.get_shape().as_list(). -/
def tensorShape (t : Tensor) : List Nat := [t.length, (t.headD []).length]

/-- Arguments of the single shared mean-std network call
(source lines 124-140): output width action_dim * 2 and an output-bias
initializer equal to output_dim zeros followed by output_dim copies of
init_std_param. -/
def sharedMlpArgs (cfg : GaussianMLPConfig) (d : DerivedBounds)
    (x : Tensor) : MlpArgs :=
  { input := x
    output_dim := cfg.output_dim * 2
    hidden_sizes := cfg.hidden_sizes
    hidden_nonlinearity := cfg.hidden_nonlinearity
    hidden_w_init := cfg.hidden_w_init
    hidden_b_init := cfg.hidden_b_init
    output_nonlinearity := cfg.output_nonlinearity
    output_w_init := cfg.output_w_init
    output_b_init := .constVec (List.replicate cfg.output_dim 0 ++
      List.replicate cfg.output_dim d.init_std_param)
    name := "mean_std_network"
    layer_normalization := cfg.layer_normalization }

/-- Arguments of the dedicated mean network call (source lines 149-160). -/
def meanMlpArgs (cfg : GaussianMLPConfig) (x : Tensor) : MlpArgs :=
  { input := x
    output_dim := cfg.output_dim
    hidden_sizes := cfg.hidden_sizes
    hidden_nonlinearity := cfg.hidden_nonlinearity
    hidden_w_init := cfg.hidden_w_init
    hidden_b_init := cfg.hidden_b_init
    output_nonlinearity := cfg.output_nonlinearity
    output_w_init := cfg.output_w_init
    output_b_init := cfg.output_b_init
    name := "mean_network"
    layer_normalization := cfg.layer_normalization }

/-- Arguments of the adaptive std network call (source lines 164-176). -/
def stdMlpArgs (cfg : GaussianMLPConfig) (d : DerivedBounds)
    (x : Tensor) : MlpArgs :=
  { input := x
    output_dim := cfg.output_dim
    hidden_sizes := cfg.std_hidden_sizes
    hidden_nonlinearity := cfg.std_hidden_nonlinearity
    hidden_w_init := cfg.std_hidden_w_init
    hidden_b_init := cfg.std_hidden_b_init
    output_nonlinearity := cfg.std_output_nonlinearity
    output_w_init := cfg.std_output_w_init
    output_b_init := .constScalar d.init_std_param
    name := "log_std_network"
    layer_normalization := cfg.layer_normalization }

/-- Arguments of the non-adaptive std parameter call
(source lines 178-184). -/
def stdParamArgs (cfg : GaussianMLPConfig) (d : DerivedBounds)
    (x : Tensor) : ParamArgs :=
  { input := x
    length := cfg.output_dim
    initVal := .constScalar d.init_std_param
    trainable := cfg.learn_std
    name := "log_std_network" }

/-- DiagonalGaussian distribution object, represented by the dimension it
is constructed from (source line 202 constructs it from self._output_dim;
the probability math lives in the external collaborator). -/
structure DiagonalGaussian where
  dim : Nat

/-- Output of the mean-std network factory: the two tensors plus the record
of every collaborator call made while building them. -/
structure FactoryOut where
  mean_network : Tensor
  log_std_network : Tensor
  mlpCalls : List MlpArgs
  paramCalls : List ParamArgs

/-- The dist_params block of `_build` (source lines 121-184): either one
shared network split along the last axis, or a dedicated mean network plus
either an adaptive std network or a broadcast std parameter. -/
noncomputable def meanStdFactory (cfg : GaussianMLPConfig)
    (d : DerivedBounds) (env : BuildEnv) (x : Tensor) : FactoryOut :=
  if cfg.std_share_network then
    let mean_std_network := env.mlp (sharedMlpArgs cfg d x)
    { mean_network := mean_std_network.map (List.take cfg.output_dim)
      log_std_network := mean_std_network.map (List.drop cfg.output_dim)
      mlpCalls := [sharedMlpArgs cfg d x]
      paramCalls := [] }
  else
    let mean_network := env.mlp (meanMlpArgs cfg x)
    if cfg.adaptive_std then
      { mean_network := mean_network
        log_std_network := env.mlp (stdMlpArgs cfg d x)
        mlpCalls := [meanMlpArgs cfg x, stdMlpArgs cfg d x]
        paramCalls := [] }
    else
      { mean_network := mean_network
        log_std_network := env.parameter (stdParamArgs cfg d x)
        mlpCalls := [meanMlpArgs cfg x]
        paramCalls := [stdParamArgs cfg d x] }

/-- Result of `_build`. The first five fields are, in order, the returned
5-tuple (action_var, mean_var, log_std_var, std_param, dist) of source
line 206; rawStd records the pre-clamp log_std_network tensor, and the two
call lists record the collaborator calls made by the factory stage. -/
structure BuildResult where
  sample : Tensor
  mean : Tensor
  log_std : Tensor
  std_param : Tensor
  dist : DiagonalGaussian
  rawStd : Tensor
  mlpCalls : List MlpArgs
  paramCalls : List ParamArgs

/-- The `_build` method (source lines 118-206). The DiagonalGaussian
distribution object is represented by the output_dim it is constructed
from; the noise is requested from the random source with shape equal to
mean_var's shape with the leading batch dimension dropped, and the sample
is noise * exp(log_std) + mean with the noise vector broadcast over the
batch. -/
noncomputable def buildModel (cfg : GaussianMLPConfig) (d : DerivedBounds)
    (env : BuildEnv) (state_input : Tensor) : BuildResult :=
  let f := meanStdFactory cfg d env state_input
  let mean_var := f.mean_network
  let std_param0 := f.log_std_network
  let std_param1 := match d.min_std_param with
    | some m => std_param0.map (List.map (fun v => max v m))
    | none => std_param0
  let std_param := match d.max_std_param with
    | some M => std_param1.map (List.map (fun v => min v M))
    | none => std_param1
  let log_std_var := if cfg.std_parameterization = "exp" then std_param
    else std_param.map (List.map (fun v =>
      Real.log (Real.log (1 + Real.exp v))))
  let rnd := env.randNormal ((tensorShape mean_var).drop 1)
  let action_var := List.zipWith
    (fun lrow mrow => List.zipWith (fun a m => a + m)
      (List.zipWith (fun n l => n * Real.exp l) rnd lrow) mrow)
    log_std_var mean_var
  { sample := action_var
    mean := mean_var
    log_std := log_std_var
    std_param := std_param
    dist := { dim := cfg.output_dim }
    rawStd := std_param0
    mlpCalls := f.mlpCalls
    paramCalls := f.paramCalls }

/-- Modelled from the spec: the trainable-parameter broadcaster
garage.tf.core.parameter, an external collaborator whose source is not in
the repository snapshot. Per the spec it broadcasts a length-`length`
vector (the parameter's current value w) across the batch shape of the
reference input, so every batch row of its output is w. -/
def parameterModel (w : List ℝ) (args : ParamArgs) : Tensor :=
  args.input.map (fun _ => w)

/-- Concrete configuration exercising the shared-trunk branch. -/
def cfgShared : GaussianMLPConfig := { output_dim := 1, std_share_network := true }

/-- Concrete derived bounds with init_std_param = 0 and no clamp bounds. -/
def dShared : DerivedBounds := { init_std_param := 0 }

/-- Concrete environment whose network builder always returns one row of
width two. -/
def envShared : BuildEnv :=
  { mlp := fun _ => [[5, 7]]
    parameter := fun _ => [[0]]
    randNormal := fun _ => [0] }

/-- Concrete one-row state input. -/
def xShared : Tensor := [[1]]

/-- Concrete configuration exercising the fixed-parameter std branch. -/
def cfgFix : GaussianMLPConfig := { output_dim := 1 }

/-- Concrete derived bounds for the fixed-parameter scenario. -/
def dFix : DerivedBounds := { init_std_param := 0 }

/-- Concrete current value of the broadcast std parameter vector. -/
def wFix : List ℝ := [7]

/-- Concrete environment whose parameter broadcaster follows the spec
model with current value wFix. -/
def envFix : BuildEnv :=
  { mlp := fun _ => [[3], [4]]
    parameter := parameterModel wFix
    randNormal := fun _ => [0] }

/-- Concrete two-row state input. -/
def xFix : Tensor := [[1], [2]]

/-- Concrete configuration for the sampler scenario. -/
def cfgSampler : GaussianMLPConfig := { output_dim := 1 }

/-- Concrete derived bounds for the sampler scenario. -/
def dSampler : DerivedBounds := { init_std_param := 5 }

/-- Concrete environment for the sampler scenario: the mean network yields
[[3]], the std parameter broadcasts to [[5]], the noise draw is [2]. -/
def envSampler : BuildEnv :=
  { mlp := fun _ => [[3]]
    parameter := fun _ => [[5]]
    randNormal := fun _ => [2] }

/-- Concrete one-row state input for the sampler scenario. -/
def xSampler : Tensor := [[1]]

/-- Concrete configuration for the shared-trunk invariance scenario. -/
def cfgTrunk : GaussianMLPConfig := { output_dim := 1, std_share_network := true }

/-- Concrete derived bounds for the shared-trunk invariance scenario. -/
def dTrunk : DerivedBounds := { init_std_param := 0 }

/-- Concrete environment for the shared-trunk invariance scenario. -/
def envTrunk : BuildEnv :=
  { mlp := fun _ => [[5, 7]]
    parameter := fun _ => [[0]]
    randNormal := fun _ => [0] }

/-- Concrete one-row state input for the shared-trunk invariance
scenario. -/
def xTrunk : Tensor := [[1]]

@[simp] theorem stdClamp_some_some (m M x : ℝ) :
    stdClamp (some m) (some M) x = min (max x m) M := rfl

@[simp] theorem stdClamp_some_none (m x : ℝ) :
    stdClamp (some m) none x = max x m := rfl

@[simp] theorem stdClamp_none_some (M x : ℝ) :
    stdClamp none (some M) x = min x M := rfl

@[simp] theorem stdClamp_none_none (x : ℝ) :
    stdClamp none none x = x := rfl

/-- Helper bound: ln 10 < 5, used for the concrete clamping scenario. -/
theorem log_ten_lt_five : Real.log 10 < 5 := by
  have h1 : Real.exp 5 = Real.exp 2.5 * Real.exp 2.5 := by
    rw [← Real.exp_add]; norm_num
  have h2 : (3.5 : ℝ) ≤ Real.exp 2.5 := by
    have := Real.add_one_le_exp (2.5 : ℝ)
    linarith
  have h3 : (10 : ℝ) < Real.exp 5 := by
    nlinarith
  have h4 : (0 : ℝ) < 10 := by norm_num
  rw [Real.log_lt_iff_lt_exp h4]
  exact h3

/-- C1: at construction, mode "exp" derives ln(value) for init_std and for
every non-null min_std/max_std; mode "softplus" derives ln(exp(value) - 1);
in particular init_std = 1.0 yields init_std_param = 0 under "exp" and
ln(e - 1) under "softplus". -/
theorem stdParametrizer_derivation :
    (∀ (i : ℝ) (mn mx : Option ℝ), deriveStdParams i mn mx "exp" =
      .ok { init_std_param := Real.log i, min_std_param := mn.map Real.log,
            max_std_param := mx.map Real.log }) ∧
    (∀ (i : ℝ) (mn mx : Option ℝ), deriveStdParams i mn mx "softplus" =
      .ok { init_std_param := Real.log (Real.exp i - 1),
            min_std_param := mn.map (fun v => Real.log (Real.exp v - 1)),
            max_std_param := mx.map (fun v => Real.log (Real.exp v - 1)) }) ∧
    deriveStdParams 1 none none "exp" =
      .ok { init_std_param := 0, min_std_param := none,
            max_std_param := none } ∧
    deriveStdParams 1 none none "softplus" =
      .ok { init_std_param := Real.log (Real.exp 1 - 1),
            min_std_param := none, max_std_param := none } := by
  refine ⟨fun i mn mx => rfl, fun i mn mx => rfl, ?_, rfl⟩
  simp [deriveStdParams]

/-- C3: the log-std conversion is the identity in mode "exp" (so it leaves
clamped values unchanged), and equals ln(ln(1 + exp(std_param))) in mode
"softplus". -/
theorem logStdConverter_spec :
    (∀ x : ℝ, logStdConverter "exp" x = x) ∧
    (∀ x : ℝ, logStdConverter "softplus" x =
      Real.log (Real.log (1 + Real.exp x))) ∧
    (∀ (mn mx : Option ℝ) (x : ℝ),
      logStdConverter "exp" (stdClamp mn mx x) = stdClamp mn mx x) := by
  refine ⟨fun x => rfl, fun x => rfl, fun mn mx x => rfl⟩

/-- C2: the clamp applies the lower bound first and the upper bound second,
each only when configured; a degenerate configuration with
min_std_param > max_std_param collapses to max_std_param for every input;
and a raw std_param of -5 with min_std = 0.1 in mode "exp" clamps to
ln(0.1). -/
theorem stdClamp_order_spec :
    (∀ (m M x : ℝ), stdClamp (some m) (some M) x = min (max x m) M) ∧
    (∀ (m x : ℝ), stdClamp (some m) none x = max x m) ∧
    (∀ (M x : ℝ), stdClamp none (some M) x = min x M) ∧
    (∀ x : ℝ, stdClamp none none x = x) ∧
    (∀ (m M x : ℝ), M < m → stdClamp (some m) (some M) x = M) ∧
    stdClamp (some (Real.log 0.1)) none (-5) = Real.log 0.1 := by
  refine ⟨fun m M x => rfl, fun m x => rfl, fun M x => rfl, fun x => rfl,
    ?_, ?_⟩
  · intro m M x h
    rw [stdClamp_some_some]
    exact min_eq_right (le_trans h.le (le_max_right x m))
  · rw [stdClamp_some_none]
    refine max_eq_right ?_
    have h1 : Real.log 0.1 = -Real.log 10 := by
      rw [show (0.1 : ℝ) = 10⁻¹ by norm_num, Real.log_inv]
    rw [h1]
    linarith [log_ten_lt_five]

/-- Witness for the clamp-order claim at a concrete degenerate input. -/
theorem stdClamp_order_spec_witness :
    (1 : ℝ) < 2 ∧ stdClamp (some 2) (some 1) 5 = 1 :=
  ⟨by norm_num, stdClamp_order_spec.2.2.2.2.1 2 1 5 (by norm_num)⟩

/-- C8: the clamp is idempotent, on scalars and elementwise on tensors. -/
theorem stdClamp_idempotent :
    (∀ (mn mx : Option ℝ) (x : ℝ),
      stdClamp mn mx (stdClamp mn mx x) = stdClamp mn mx x) ∧
    (∀ (mn mx : Option ℝ) (t : Tensor),
      tensorClamp mn mx (tensorClamp mn mx t) = tensorClamp mn mx t) := by
  have hscalar : ∀ (mn mx : Option ℝ) (x : ℝ),
      stdClamp mn mx (stdClamp mn mx x) = stdClamp mn mx x := by
    intro mn mx x
    match mn, mx with
    | none, none => rfl
    | some m, none =>
      simp only [stdClamp_some_none]
      rw [max_eq_left (le_max_right x m)]
    | none, some M =>
      simp only [stdClamp_none_some]
      rw [min_eq_left (min_le_right x M)]
    | some m, some M =>
      simp only [stdClamp_some_some]
      rcases le_total m M with h | h
      · have h1 : m ≤ min (max x m) M := le_min (le_max_right x m) h
        rw [max_eq_left h1, min_eq_left (min_le_right (max x m) M)]
      · have h1 : M ≤ max x m := le_trans h (le_max_right x m)
        rw [min_eq_right h1, max_eq_right h, min_eq_right h]
  refine ⟨hscalar, fun mn mx t => ?_⟩
  unfold tensorClamp
  rw [List.map_map]
  refine List.map_congr_left ?_
  intro row _
  rw [Function.comp_apply, List.map_map]
  refine List.map_congr_left ?_
  intro a _
  rw [Function.comp_apply]
  exact hscalar mn mx a

/-- Index lemma for zipWith under getD, used for the pointwise sampler
characterization. -/
theorem getD_zipWith {α β γ : Type} (f : α → β → γ) (a : List α) (b : List β)
    (i : Nat) (da : α) (db : β) (dc : γ) (ha : i < a.length)
    (hb : i < b.length) :
    (List.zipWith f a b).getD i dc = f (a.getD i da) (b.getD i db) := by
  induction a generalizing b i with
  | nil => simp at ha
  | cons u us ih =>
    cases b with
    | nil => simp at hb
    | cons v vs =>
      cases i with
      | zero => rfl
      | succ n =>
        simp only [List.zipWith_cons_cons, List.getD_cons_succ]
        exact ih vs n (Nat.lt_of_succ_lt_succ ha) (Nat.lt_of_succ_lt_succ hb)

/-- Reduction of the factory on the shared-trunk branch. -/
theorem meanStdFactory_shared (cfg : GaussianMLPConfig) (d : DerivedBounds)
    (env : BuildEnv) (x : Tensor) (hs : cfg.std_share_network = true) :
    meanStdFactory cfg d env x =
      { mean_network := (env.mlp (sharedMlpArgs cfg d x)).map
          (List.take cfg.output_dim)
        log_std_network := (env.mlp (sharedMlpArgs cfg d x)).map
          (List.drop cfg.output_dim)
        mlpCalls := [sharedMlpArgs cfg d x]
        paramCalls := [] } := by
  simp [meanStdFactory, hs]

/-- Reduction of the factory on the separate, non-adaptive branch. -/
theorem meanStdFactory_fixed (cfg : GaussianMLPConfig) (d : DerivedBounds)
    (env : BuildEnv) (x : Tensor) (hs : cfg.std_share_network = false)
    (ha : cfg.adaptive_std = false) :
    meanStdFactory cfg d env x =
      { mean_network := env.mlp (meanMlpArgs cfg x)
        log_std_network := env.parameter (stdParamArgs cfg d x)
        mlpCalls := [meanMlpArgs cfg x]
        paramCalls := [stdParamArgs cfg d x] } := by
  simp [meanStdFactory, hs, ha]

/-- C5: with std_share_network, the factory makes exactly one subnetwork
call, of output width 2 * output_dim, whose output-bias initializer is
output_dim zeros followed by output_dim copies of init_std_param; the
output is split along the last axis into mean (first output_dim
components) and the raw std parameter (the rest), each of width
output_dim whenever the builder honors the requested width. -/
theorem sharedNetworkFactory_spec (cfg : GaussianMLPConfig)
    (d : DerivedBounds) (env : BuildEnv) (x : Tensor)
    (hs : cfg.std_share_network = true)
    (hw : ∀ row ∈ env.mlp (sharedMlpArgs cfg d x),
      row.length = 2 * cfg.output_dim) :
    (buildModel cfg d env x).mlpCalls = [sharedMlpArgs cfg d x] ∧
    (buildModel cfg d env x).paramCalls = [] ∧
    (sharedMlpArgs cfg d x).output_dim = 2 * cfg.output_dim ∧
    (sharedMlpArgs cfg d x).output_b_init = TfInit.constVec
      (List.replicate cfg.output_dim 0 ++
        List.replicate cfg.output_dim d.init_std_param) ∧
    (buildModel cfg d env x).mean =
      (env.mlp (sharedMlpArgs cfg d x)).map (List.take cfg.output_dim) ∧
    (buildModel cfg d env x).rawStd =
      (env.mlp (sharedMlpArgs cfg d x)).map (List.drop cfg.output_dim) ∧
    (∀ row ∈ (buildModel cfg d env x).mean, row.length = cfg.output_dim) ∧
    (∀ row ∈ (buildModel cfg d env x).rawStd,
      row.length = cfg.output_dim) := by
  have hfac := meanStdFactory_shared cfg d env x hs
  have hmlp : (buildModel cfg d env x).mlpCalls =
      (meanStdFactory cfg d env x).mlpCalls := rfl
  have hpar : (buildModel cfg d env x).paramCalls =
      (meanStdFactory cfg d env x).paramCalls := rfl
  have hmean : (buildModel cfg d env x).mean =
      (meanStdFactory cfg d env x).mean_network := rfl
  have hraw : (buildModel cfg d env x).rawStd =
      (meanStdFactory cfg d env x).log_std_network := rfl
  refine ⟨by rw [hmlp, hfac], by rw [hpar, hfac], by
      simp [sharedMlpArgs, Nat.mul_comm], rfl, by rw [hmean, hfac],
    by rw [hraw, hfac], ?_, ?_⟩
  · intro row hrow
    rw [hmean, hfac] at hrow
    simp only [List.mem_map] at hrow
    obtain ⟨orow, horow, rfl⟩ := hrow
    rw [List.length_take, hw orow horow]
    omega
  · intro row hrow
    rw [hraw, hfac] at hrow
    simp only [List.mem_map] at hrow
    obtain ⟨orow, horow, rfl⟩ := hrow
    rw [List.length_drop, hw orow horow]
    omega

/-- Witness for the shared-trunk factory claim at a concrete instance. -/
theorem sharedNetworkFactory_spec_witness :
    cfgShared.std_share_network = true ∧
    (∀ row ∈ envShared.mlp (sharedMlpArgs cfgShared dShared xShared),
      row.length = 2 * cfgShared.output_dim) ∧
    (buildModel cfgShared dShared envShared xShared).mean = [[5]] ∧
    (buildModel cfgShared dShared envShared xShared).rawStd = [[7]] := by
  have hw : ∀ row ∈ envShared.mlp (sharedMlpArgs cfgShared dShared xShared),
      row.length = 2 * cfgShared.output_dim := by
    intro row hrow
    have : row = [5, 7] := by
      simpa [envShared] using hrow
    rw [this]
    rfl
  have h := sharedNetworkFactory_spec cfgShared dShared envShared xShared
    rfl hw
  exact ⟨rfl, hw, h.2.2.2.2.1.trans rfl, h.2.2.2.2.2.1.trans rfl⟩

/-- C6: without a shared network and without adaptive std, the std
parameter comes from a single parameter call of length output_dim,
trainable exactly when learn_std is set, initialized to init_std_param;
under the spec model of the broadcaster it equals the same current vector
w on every batch row, for every state input. -/
theorem fixedStdParameter_spec (cfg : GaussianMLPConfig)
    (d : DerivedBounds) (env : BuildEnv) (x : Tensor) (w : List ℝ)
    (hs : cfg.std_share_network = false) (ha : cfg.adaptive_std = false)
    (henv : env.parameter = parameterModel w)
    (hw : w.length = cfg.output_dim) :
    (buildModel cfg d env x).paramCalls = [stdParamArgs cfg d x] ∧
    (buildModel cfg d env x).mlpCalls = [meanMlpArgs cfg x] ∧
    (stdParamArgs cfg d x).length = cfg.output_dim ∧
    (stdParamArgs cfg d x).trainable = cfg.learn_std ∧
    (stdParamArgs cfg d x).initVal = TfInit.constScalar d.init_std_param ∧
    (buildModel cfg d env x).rawStd = x.map (fun _ => w) ∧
    (∀ i : Nat, i < x.length →
      (buildModel cfg d env x).rawStd.getD i [] = w) ∧
    (∀ row ∈ (buildModel cfg d env x).rawStd,
      row.length = cfg.output_dim) := by
  have hfac := meanStdFactory_fixed cfg d env x hs ha
  have hpar : (buildModel cfg d env x).paramCalls =
      (meanStdFactory cfg d env x).paramCalls := rfl
  have hmlp : (buildModel cfg d env x).mlpCalls =
      (meanStdFactory cfg d env x).mlpCalls := rfl
  have hraw : (buildModel cfg d env x).rawStd =
      (meanStdFactory cfg d env x).log_std_network := rfl
  have hrw : (buildModel cfg d env x).rawStd = x.map (fun _ => w) := by
    rw [hraw, hfac]
    show env.parameter (stdParamArgs cfg d x) = x.map (fun _ => w)
    rw [henv]
    rfl
  refine ⟨by rw [hpar, hfac], by rw [hmlp, hfac], rfl, rfl, rfl, hrw,
    ?_, ?_⟩
  · intro i hi
    rw [hrw, List.getD_eq_getElem?_getD, List.getElem?_map]
    have hx : x[i]? = some x[i] := List.getElem?_eq_getElem (by simpa using hi)
    rw [hx]
    rfl
  · intro row hrow
    rw [hrw] at hrow
    simp only [List.mem_map] at hrow
    obtain ⟨orow, _, rfl⟩ := hrow
    exact hw

/-- Witness for the fixed-parameter std claim at a concrete instance. -/
theorem fixedStdParameter_spec_witness :
    cfgFix.std_share_network = false ∧
    cfgFix.adaptive_std = false ∧
    envFix.parameter = parameterModel wFix ∧
    wFix.length = cfgFix.output_dim ∧
    (buildModel cfgFix dFix envFix xFix).rawStd = [[7], [7]] ∧
    (buildModel cfgFix dFix envFix xFix).rawStd.getD 1 [] = wFix := by
  have h := fixedStdParameter_spec cfgFix dFix envFix xFix wFix
    rfl rfl rfl rfl
  exact ⟨rfl, rfl, rfl, rfl, h.2.2.2.2.2.1.trans rfl,
    h.2.2.2.2.2.2.1 1 (by norm_num [xFix])⟩

/-- C10: with std_share_network set, the whole build result is unchanged
by any modification of adaptive_std and of every std-specific hidden
size, nonlinearity and initializer: the shared-trunk branch is taken
unconditionally and never consults them. -/
theorem sharedTrunk_ignores_std_config (cfg : GaussianMLPConfig)
    (d : DerivedBounds) (env : BuildEnv) (x : Tensor)
    (hs : cfg.std_share_network = true)
    (a : Bool) (sh : List Nat) (snl : Nonlin) (swi sbi : TfInit)
    (sonl : Nonlin) (sowi sobi : TfInit) :
    buildModel { cfg with
        adaptive_std := a
        std_hidden_sizes := sh
        std_hidden_nonlinearity := snl
        std_hidden_w_init := swi
        std_hidden_b_init := sbi
        std_output_nonlinearity := sonl
        std_output_w_init := sowi
        std_output_b_init := sobi } d env x =
      buildModel cfg d env x := by
  have hfac : meanStdFactory { cfg with
      adaptive_std := a
      std_hidden_sizes := sh
      std_hidden_nonlinearity := snl
      std_hidden_w_init := swi
      std_hidden_b_init := sbi
      std_output_nonlinearity := sonl
      std_output_w_init := sowi
      std_output_b_init := sobi } d env x = meanStdFactory cfg d env x := by
    rw [meanStdFactory_shared cfg d env x hs]
    exact meanStdFactory_shared _ d env x hs
  unfold buildModel
  rw [hfac]

/-- Witness for the shared-trunk invariance claim at a concrete
instance. -/
theorem sharedTrunk_ignores_std_config_witness :
    cfgTrunk.std_share_network = true ∧
    buildModel { cfgTrunk with
        adaptive_std := true
        std_hidden_sizes := [8]
        std_hidden_nonlinearity := none
        std_hidden_b_init := .user 9
        std_hidden_w_init := .user 9
        std_output_nonlinearity := some 3
        std_output_w_init := .user 9
        std_output_b_init := .user 9 } dTrunk envTrunk xTrunk =
      buildModel cfgTrunk dTrunk envTrunk xTrunk :=
  ⟨rfl, sharedTrunk_ignores_std_config cfgTrunk dTrunk envTrunk xTrunk rfl
    true [8] none (.user 9) (.user 9) (some 3) (.user 9) (.user 9)⟩

/-- C4: the build returns, alongside mean, log_std and std_param, a
distribution object constructed from output_dim, and a sample equal to
noise * exp(log_std) + mean, where the noise is requested from the random
source with shape equal to mean's shape without the leading batch
dimension and is broadcast over the batch; pointwise, entry (i, j) of the
sample is noise_j * exp(log_std_ij) + mean_ij. -/
theorem reparamSampler_spec (cfg : GaussianMLPConfig) (d : DerivedBounds)
    (env : BuildEnv) (x : Tensor) :
    (buildModel cfg d env x).dist = { dim := cfg.output_dim } ∧
    (buildModel cfg d env x).sample = List.zipWith
      (fun lrow mrow => List.zipWith (fun a m => a + m)
        (List.zipWith (fun n l => n * Real.exp l)
          (env.randNormal
            ((tensorShape (buildModel cfg d env x).mean).drop 1)) lrow)
        mrow)
      (buildModel cfg d env x).log_std (buildModel cfg d env x).mean ∧
    (∀ i j : Nat, i < (buildModel cfg d env x).log_std.length →
      i < (buildModel cfg d env x).mean.length →
      j < (env.randNormal
        ((tensorShape (buildModel cfg d env x).mean).drop 1)).length →
      j < ((buildModel cfg d env x).log_std.getD i []).length →
      j < ((buildModel cfg d env x).mean.getD i []).length →
      ((buildModel cfg d env x).sample.getD i []).getD j 0 =
        (env.randNormal
          ((tensorShape (buildModel cfg d env x).mean).drop 1)).getD j 0 *
          Real.exp (((buildModel cfg d env x).log_std.getD i []).getD j 0) +
        ((buildModel cfg d env x).mean.getD i []).getD j 0) := by
  refine ⟨rfl, rfl, ?_⟩
  intro i j hi hi' hj hj' hj''
  have hsam : (buildModel cfg d env x).sample = List.zipWith
      (fun lrow mrow => List.zipWith (fun a m => a + m)
        (List.zipWith (fun n l => n * Real.exp l)
          (env.randNormal
            ((tensorShape (buildModel cfg d env x).mean).drop 1)) lrow)
        mrow)
      (buildModel cfg d env x).log_std (buildModel cfg d env x).mean := rfl
  rw [hsam]
  rw [getD_zipWith _ _ _ i [] [] [] hi hi']
  have hlen : j < (List.zipWith (fun n l => n * Real.exp l)
      (env.randNormal
        ((tensorShape (buildModel cfg d env x).mean).drop 1))
      ((buildModel cfg d env x).log_std.getD i [])).length := by
    rw [List.length_zipWith]
    exact lt_min hj hj'
  rw [getD_zipWith _ _ _ j 0 0 0 hlen hj'']
  rw [getD_zipWith _ _ _ j 0 0 0 hj hj']

/-- Witness for the sampler claim at a concrete instance: the mean row is
[3], the clamped log-std row is [5], the noise draw is [2], and the
sample entry is 2 * exp 5 + 3. -/
theorem reparamSampler_spec_witness :
    0 < (buildModel cfgSampler dSampler envSampler xSampler).log_std.length ∧
    ((buildModel cfgSampler dSampler envSampler xSampler).sample.getD
      0 []).getD 0 0 = 2 * Real.exp 5 + 3 := by
  have h := (reparamSampler_spec cfgSampler dSampler envSampler
    xSampler).2.2 0 0 (by norm_num [buildModel, meanStdFactory, cfgSampler,
      dSampler, envSampler, xSampler])
    (by norm_num [buildModel, meanStdFactory, cfgSampler, dSampler,
      envSampler, xSampler])
    (by norm_num [envSampler])
    (by norm_num [buildModel, meanStdFactory, cfgSampler, dSampler,
      envSampler, xSampler])
    (by norm_num [buildModel, meanStdFactory, cfgSampler, dSampler,
      envSampler, xSampler])
  refine ⟨?_, h.trans ?_⟩
  · norm_num [buildModel, meanStdFactory, cfgSampler, dSampler,
      envSampler, xSampler]
  · norm_num [buildModel, meanStdFactory, cfgSampler, dSampler,
      envSampler, xSampler, tensorShape]

/-- C7: a std_parameterization that is neither "exp" nor "softplus" makes
construction fail, and the error carries the object state at raise time,
in which no derived parametrization bound has been populated. -/
theorem unsupportedParametrization_spec (i : ℝ) (mn mx : Option ℝ)
    (mode : String) (h1 : mode ≠ "exp") (h2 : mode ≠ "softplus") :
    deriveStdParams i mn mx mode = .error
      { init_std_param := none, min_std_param := none,
        max_std_param := none } := by
  simp [deriveStdParams, h1, h2]

/-- Witness for the unsupported-parametrization claim at mode "tanh". -/
theorem unsupportedParametrization_spec_witness :
    ("tanh" ≠ "exp") ∧ ("tanh" ≠ "softplus") ∧
    deriveStdParams 1 none none "tanh" = .error
      { init_std_param := none, min_std_param := none,
        max_std_param := none } :=
  ⟨by decide, by decide,
    unsupportedParametrization_spec 1 none none "tanh" (by decide)
      (by decide)⟩

/-- C9: by default min_std is 1e-6 (not null) while max_std is null, so a
freshly constructed default model has min_std_param = ln(1e-6) and no
upper bound; the lower bound is absent exactly when min_std is passed as
null, and a configured lower bound genuinely clamps from below. -/
theorem defaultBounds_spec (n : Nat) :
    ({ output_dim := n } : GaussianMLPConfig).min_std = some (1e-6 : ℝ) ∧
    ({ output_dim := n } : GaussianMLPConfig).max_std = none ∧
    construct { output_dim := n } = .ok
      { init_std_param := 0, min_std_param := some (Real.log 1e-6),
        max_std_param := none } ∧
    (∀ (i : ℝ) (mx : Option ℝ), deriveStdParams i none mx "exp" = .ok
      { init_std_param := Real.log i, min_std_param := none,
        max_std_param := mx.map Real.log }) ∧
    (∀ y : ℝ, stdClamp (some (Real.log 1e-6)) none y =
      max y (Real.log 1e-6)) := by
  refine ⟨rfl, rfl, ?_, fun i mx => rfl, fun y => rfl⟩
  show deriveStdParams 1.0 (some 1e-6) none "exp" = _
  norm_num [deriveStdParams]

end GarageGaussianMLP
